import Mathlib

/-!
Smart Tank ESP32: configuration constants and the control core they parameterise.

The repository source is `arduino-example/smart_tank_esp32/config.h`, a header of
compile-time constants.  Section 1 embeds those constants one for one.  The control
core that consumes them (SensorLink, SensorAcquisitionTask, FaultMonitor,
RelaySafetyController) is not part of the source tree; Section 2 models it from the
written specification, every such definition being marked as modelled from the spec.
-/

namespace SmartTank

/-! ## Section 1: constants of config.h -/

-- WebSocket Configuration
def WEBSOCKET_PING_INTERVAL : Nat := 30000
def WEBSOCKET_PONG_TIMEOUT : Nat := 3000

-- Pin Definitions
def RELAY1_PIN : Nat := 25
def RELAY2_PIN : Nat := 26
def OUTPUT1_PIN : Nat := 18
def OUTPUT2_PIN : Nat := 19
def STATUS_PIN : Nat := 23
def FAULT_PIN : Nat := 15
def BUZZER_PIN : Nat := 13
def CONFIG_PIN : Nat := 34

-- Sensor Configuration
def SENSOR_COMMAND : Nat := 0x55
def SENSOR_RESPONSE_DELAY : Nat := 50
def SENSOR_READ_DELAY_A : Nat := 1000
def SENSOR_READ_DELAY_B : Nat := 1000

-- System Configuration
def FAULT_CHECK_INTERVAL : Nat := 100
def BUZZER_FAULT_DURATION : Nat := 100

-- Sensor Limits
def MIN_SENSOR_VALUE : Int := 0
def MAX_SENSOR_VALUE : Int := 5000
def SENSOR_TIMEOUT : Nat := 5000

-- Core Assignment
def SENSOR_A_CORE : Nat := 0
def SENSOR_B_CORE : Nat := 1

-- Safety Configuration
def MAX_PUMP_RUNTIME : Nat := 300000
def FAULT_BUZZER_PATTERN : Nat := 3
def SYSTEM_RESET_TIMEOUT : Nat := 60000

-- EEPROM Configuration
def EEPROM_SIZE : Nat := 512
def EEPROM_WIFI_SSID_ADDR : Nat := 0
def EEPROM_WIFI_PASS_ADDR : Nat := 64
def EEPROM_SENSOR_DELAY_A_ADDR : Nat := 128
def EEPROM_SENSOR_DELAY_B_ADDR : Nat := 132

/-- The eight logical pin roles of the "Pin Definitions" block, in source order. -/
def pinAssignments : List Nat :=
  [RELAY1_PIN, RELAY2_PIN, OUTPUT1_PIN, OUTPUT2_PIN, STATUS_PIN, FAULT_PIN, BUZZER_PIN, CONFIG_PIN]

/-- Byte address `a` lies in the region of `size` bytes that starts at offset `off`. -/
def inRegion (off size a : Nat) : Prop := off ≤ a ∧ a < off + size

instance (off size a : Nat) : Decidable (inRegion off size a) := by
  unfold inRegion; infer_instance

/-! ## Section 2: the control core, modelled from the specification -/

/-- Modelled from the spec: the status tag of a SensorReading (spec section 3); the
firmware type is not in config.h. -/
inductive SensorStatus
  | Valid
  | Timeout
  | OutOfRange
  | NotYetRead
  deriving DecidableEq

/-- Modelled from the spec: SensorReading (spec section 3), the record one acquisition
task publishes for its channel.  Times are milliseconds since start-up. -/
structure SensorReading where
  valueMm : Int
  timestamp : Nat
  status : SensorStatus
  deriving DecidableEq

/-- Modelled from the spec: the start-up default of a SensorReading (spec section 3,
lifecycle: created with NotYetRead). -/
def SensorReading.init : SensorReading := { valueMm := 0, timestamp := 0, status := .NotYetRead }

/-- Modelled from the spec: SensorLink.poll (spec section 4.1), whose code is not in
config.h.  `rx` is what the serial line delivered inside the response window (empty when
no bytes arrived) and `now` the time of the exchange.  The byte layout of a frame is an
external-hardware contract the spec leaves open, so the frame decoder is the parameter
`decode` (`none` for a frame that is not well-formed); the spec names no status for a
malformed frame either, so that status is the parameter `onMalformed`.  A decoded value
is compared with `[MIN_SENSOR_VALUE, MAX_SENSOR_VALUE]`; a value outside is reported
`OutOfRange` and is never clamped into the range. -/
def SensorLink.poll (decode : List Nat → Option Int) (onMalformed : SensorStatus)
    (now : Nat) (rx : List Nat) : SensorReading :=
  match rx with
  | [] => { valueMm := 0, timestamp := now, status := .Timeout }
  | _ :: _ =>
    match decode rx with
    | none => { valueMm := 0, timestamp := now, status := onMalformed }
    | some v =>
      if MIN_SENSOR_VALUE ≤ v ∧ v ≤ MAX_SENSOR_VALUE then
        { valueMm := v, timestamp := now, status := .Valid }
      else
        { valueMm := 0, timestamp := now, status := .OutOfRange }

/-- Modelled from the spec: the SensorAcquisitionTask loop (spec section 4.2), whose code
is not in config.h.  Cycle `k` runs at the scheduled time `k * period`, polls the
SensorLink and publishes the result in place of the prior reading, whatever its status;
`rxs` lists what the serial line delivered in the successive cycles. -/
def SensorAcquisitionTask.run (decode : List Nat → Option Int) (onMalformed : SensorStatus)
    (period : Nat) : Nat → List (List Nat) → SensorReading → SensorReading
  | _, [], published => published
  | k, rx :: rest, _ =>
    SensorAcquisitionTask.run decode onMalformed period (k + 1) rest
      (SensorLink.poll decode onMalformed (k * period) rx)

/-- Modelled from the spec: the states of one relay channel in the RelaySafetyController
state machine (spec section 4.4). -/
inductive RelayState
  | Off
  | On
  | OverrunLocked
  | FaultLocked
  deriving DecidableEq

/-- Modelled from the spec: the two lockout states (glossary, Lockout). -/
def RelayState.isLocked : RelayState → Bool
  | .OverrunLocked => true
  | .FaultLocked => true
  | _ => false

/-- Modelled from the spec: RelayChannel (spec section 3) together with its state-machine
state (spec section 4.4).  `actualOn` is the level of the physical output. -/
structure RelayChannel where
  id : Nat
  state : RelayState
  commandedOn : Bool
  actualOn : Bool
  onSinceTimestamp : Option Nat
  lockedOut : Bool
  deriving DecidableEq

/-- Modelled from the spec: the start-up default of a RelayChannel (spec section 3,
lifecycle: created off). -/
def RelayChannel.init (id : Nat) : RelayChannel :=
  { id := id, state := .Off, commandedOn := false, actualOn := false,
    onSinceTimestamp := none, lockedOut := false }

/-- Modelled from the spec: the errors a relay transition reports to its caller (spec
sections 4.4 and 7). -/
inductive RelayError
  | faultActive
  | lockedOut
  | conditionNotCleared
  deriving DecidableEq

/-- Modelled from the spec: the inputs of the relay state machine (spec section 4.4).
`commandOn now desired faultActive` is a command arriving at time `now` while a fault is
or is not active; `controlCycle now` is one control cycle; `faultSignal` is the
FaultMonitor signalling a fault that is not channel-local; `reset cleared` is an explicit
reset command, `cleared` telling whether the triggering condition has cleared. -/
inductive RelayEvent
  | commandOn (now : Nat) (desired : Bool) (faultActive : Bool)
  | controlCycle (now : Nat)
  | faultSignal
  | reset (conditionCleared : Bool)
  deriving DecidableEq

/-- Modelled from the spec: the overrun condition of spec section 4.4,
`now - onSinceTimestamp >= MAX_PUMP_RUNTIME`, on millisecond timestamps. -/
def overrunElapsed (now : Nat) : Option Nat → Bool
  | some since => decide (MAX_PUMP_RUNTIME ≤ now - since)
  | none => false

/-- Modelled from the spec: the transition function of one relay channel (spec section
4.4), returning the new channel and an optional error.
* `Off --commandOn(true), no active fault--> On`, recording `onSinceTimestamp`; a command
  never writes `lockedOut`, and in a lockout state it is rejected.
* `On --commandOn(false)--> Off`, clearing `onSinceTimestamp`.
* a control cycle takes `On` to `OverrunLocked` once the overrun condition holds, and
  then re-asserts the physical output from the state it ends in.
* `On|Off --fault signal--> FaultLocked`, output forced off.
* `OverrunLocked|FaultLocked --reset, condition cleared--> Off`; a reset while the
  condition persists is rejected with an error and changes nothing. -/
def RelayChannel.step (c : RelayChannel) : RelayEvent → RelayChannel × Option RelayError
  | .commandOn now true faultActive =>
    match c.state with
    | .Off =>
      if faultActive then (c, some .faultActive)
      else ({ c with state := .On, commandedOn := true, actualOn := true,
                     onSinceTimestamp := some now }, none)
    | .On => (c, none)
    | .OverrunLocked => (c, some .lockedOut)
    | .FaultLocked => (c, some .lockedOut)
  | .commandOn _ false _ =>
    match c.state with
    | .On => ({ c with state := .Off, commandedOn := false, actualOn := false,
                       onSinceTimestamp := none }, none)
    | _ => ({ c with commandedOn := false }, none)
  | .controlCycle now =>
    let c1 : RelayChannel :=
      if c.state = .On ∧ overrunElapsed now c.onSinceTimestamp = true then
        { c with state := .OverrunLocked, lockedOut := true }
      else c
    ({ c1 with actualOn := decide (c1.state = .On) }, none)
  | .faultSignal =>
    match c.state with
    | .Off => ({ c with state := .FaultLocked, actualOn := false, lockedOut := true }, none)
    | .On => ({ c with state := .FaultLocked, actualOn := false, lockedOut := true }, none)
    | _ => (c, none)
  | .reset cleared =>
    if c.state.isLocked then
      if cleared then
        ({ c with state := .Off, commandedOn := false, actualOn := false,
                  onSinceTimestamp := none, lockedOut := false }, none)
      else (c, some .conditionNotCleared)
    else (c, none)

/-- The channel after one event. -/
def RelayChannel.next (c : RelayChannel) (e : RelayEvent) : RelayChannel := (c.step e).1

/-- The channel after a sequence of events, oldest first. -/
def RelayChannel.run (c : RelayChannel) (es : List RelayEvent) : RelayChannel :=
  es.foldl RelayChannel.next c

/-- The event is a fault signal from the FaultMonitor. -/
def RelayEvent.isFaultSignal : RelayEvent → Bool
  | .faultSignal => true
  | _ => false

/-- Modelled from the spec: an input the controller handles for a channel inside a
control cycle (spec sections 4.4 and 4.5): a command forwarded by the TelemetryServer,
with whether a fault is active; the fault signal of the FaultMonitor; an explicit reset,
with whether the triggering condition has cleared. -/
inductive RelayInput
  | command (desired : Bool) (faultActive : Bool)
  | faultSignal
  | reset (conditionCleared : Bool)
  deriving DecidableEq

/-- The event an input is for the channel when it is handled at time `now`. -/
def RelayInput.toEvent (now : Nat) : RelayInput → RelayEvent
  | .command desired faultActive => .commandOn now desired faultActive
  | .faultSignal => .faultSignal
  | .reset cleared => .reset cleared

/-- Modelled from the spec: the events of the control cycle the controller runs for a
channel at time `now` (spec section 4.4): the cycle first checks the overrun condition
and re-asserts the output from the state, then handles the inputs pending at that time,
in order, each stamped `now`. -/
def cycleEvents (now : Nat) (inputs : List RelayInput) : List RelayEvent :=
  .controlCycle now :: inputs.map (RelayInput.toEvent now)

/-- Modelled from the spec: the events of an execution of the controller for one
channel, the execution being given by its successive control cycles, each with its time
and the inputs it handles.  The state of the channel at a time is the state its control
cycle of that time leaves. -/
def cycleTrace : List (Nat × List RelayInput) → List RelayEvent
  | [] => []
  | (now, inputs) :: rest => cycleEvents now inputs ++ cycleTrace rest

/-- The channel after the control cycles of an execution. -/
def RelayChannel.runCycles (c : RelayChannel) (cycles : List (Nat × List RelayInput)) :
    RelayChannel :=
  c.run (cycleTrace cycles)

/-- No control cycle of the execution handles a fault signal. -/
def noFaultSignalled (cycles : List (Nat × List RelayInput)) : Bool :=
  (cycleTrace cycles).all (fun e => !e.isFaultSignal)

/-- Modelled from the spec: the two relay channels (spec section 3: one RelayChannel per
physical relay output, two in this system). -/
inductive RelayId
  | relay1
  | relay2
  deriving DecidableEq

/-- The output pin config.h gives a relay channel. -/
def RelayId.pin : RelayId → Nat
  | .relay1 => RELAY1_PIN
  | .relay2 => RELAY2_PIN

/-- Modelled from the spec: the RelaySafetyController (spec sections 2 and 4.4), the sole
writer of the two relay channels. -/
structure RelaySafetyController where
  relay1 : RelayChannel
  relay2 : RelayChannel
  deriving DecidableEq

/-- Modelled from the spec: the controller at start-up, both channels off. -/
def RelaySafetyController.init : RelaySafetyController :=
  { relay1 := RelayChannel.init 1, relay2 := RelayChannel.init 2 }

/-- The channel record of a relay. -/
def RelaySafetyController.channel (s : RelaySafetyController) : RelayId → RelayChannel
  | .relay1 => s.relay1
  | .relay2 => s.relay2

/-- The controller after an event addressed to one channel; the other is untouched. -/
def RelaySafetyController.apply (s : RelaySafetyController) :
    RelayId × RelayEvent → RelaySafetyController
  | (.relay1, e) => { s with relay1 := s.relay1.next e }
  | (.relay2, e) => { s with relay2 := s.relay2.next e }

/-- The controller after a sequence of addressed events, oldest first. -/
def RelaySafetyController.run (s : RelaySafetyController)
    (es : List (RelayId × RelayEvent)) : RelaySafetyController :=
  es.foldl RelaySafetyController.apply s

/-- The level the controller drives on a pin: the channel output on a relay pin, low on
every other pin. -/
def RelaySafetyController.pinLevel (s : RelaySafetyController) (pin : Nat) : Bool :=
  (pin == RelayId.relay1.pin && s.relay1.actualOn) ||
  (pin == RelayId.relay2.pin && s.relay2.actualOn)

/-- Modelled from the spec: FaultSet (spec section 3), the independent fault causes. -/
structure FaultSet where
  sensorATimeout : Bool
  sensorBTimeout : Bool
  sensorAOutOfRange : Bool
  sensorBOutOfRange : Bool
  relayOverrun : Bool
  commLost : Bool
  deriving DecidableEq

/-- No fault cause is set. -/
def FaultSet.isEmpty (f : FaultSet) : Bool :=
  !(f.sensorATimeout || f.sensorBTimeout || f.sensorAOutOfRange || f.sensorBOutOfRange ||
    f.relayOverrun || f.commLost)

/-- Modelled from the spec: the per-channel timeout test of the FaultMonitor (spec section
4.3): `now - reading.timestamp > SENSOR_TIMEOUT` or `status == Timeout`. -/
def FaultMonitor.sensorTimedOut (now : Nat) (r : SensorReading) : Bool :=
  decide (now - r.timestamp > SENSOR_TIMEOUT) || decide (r.status = .Timeout)

/-- Modelled from the spec: one FaultMonitor cycle (spec section 4.3), whose code is not
in config.h.  It computes a complete new FaultSet from the two published readings, the
relay channels and the time of the last keepalive exchanged with a remote client. -/
def FaultMonitor.evaluate (now : Nat) (a b : SensorReading) (relays : RelaySafetyController)
    (lastKeepalive : Nat) : FaultSet :=
  { sensorATimeout := FaultMonitor.sensorTimedOut now a
    sensorBTimeout := FaultMonitor.sensorTimedOut now b
    sensorAOutOfRange := decide (a.status = .OutOfRange)
    sensorBOutOfRange := decide (b.status = .OutOfRange)
    relayOverrun := decide (relays.relay1.state = .OverrunLocked) ||
                    decide (relays.relay2.state = .OverrunLocked)
    commLost := decide (now - lastKeepalive > WEBSOCKET_PING_INTERVAL + WEBSOCKET_PONG_TIMEOUT) }

/-- Modelled from the spec: the fault indicator output (spec section 4.3), true iff the
FaultSet is non-empty. -/
def FaultMonitor.faultIndicator (f : FaultSet) : Bool := !f.isEmpty

/-- A two-byte big-endian frame decoder, used to run the scenarios on concrete bytes. -/
def scenarioDecode : List Nat → Option Int
  | [hi, lo] => some (Int.ofNat (hi * 256 + lo))
  | _ => none

/-- The bytes sensor A delivers in the timeout scenario of spec section 8: a frame
decoding to 1200 mm in each of the first `answered` cycles, then nothing for `silent`
cycles. -/
def scenarioSensorARx (answered silent : Nat) : List (List Nat) :=
  List.replicate answered [4, 176] ++ List.replicate silent []

/-- The reading sensor A has published after the cycles of `scenarioSensorARx`, polled
every SENSOR_READ_DELAY_A from cycle 1 on. -/
def scenarioSensorA (answered silent : Nat) : SensorReading :=
  SensorAcquisitionTask.run scenarioDecode .Timeout SENSOR_READ_DELAY_A 1
    (scenarioSensorARx answered silent) SensorReading.init

/-- The flags of a channel agree with its state: the output is on only in state `On`,
and `lockedOut` is set exactly in the two lockout states. -/
def RelayChannel.Consistent (c : RelayChannel) : Prop :=
  (c.actualOn = true → c.state = .On) ∧ c.lockedOut = c.state.isLocked

/-- C5: the two sensor acquisition tasks are assigned to distinct cores, and each of
SENSOR_A_CORE and SENSOR_B_CORE is a valid core index of the dual-core chip (0 or 1). -/
theorem sensor_cores_distinct_and_valid :
    SENSOR_A_CORE ≠ SENSOR_B_CORE ∧
    (SENSOR_A_CORE = 0 ∨ SENSOR_A_CORE = 1) ∧
    (SENSOR_B_CORE = 0 ∨ SENSOR_B_CORE = 1) := by
  decide

/-- C6: the four persistent config fields have increasing offsets starting at 0; the
reserved sizes of the first three are the distances to the next offset (64, 64 and 4
bytes); with poll delay B taken as 4 bytes the four regions are pairwise disjoint and
every byte of each lies inside the store of EEPROM_SIZE = 512 bytes. -/
theorem eeprom_layout_disjoint_in_store :
    (0 ≤ EEPROM_WIFI_SSID_ADDR ∧ EEPROM_WIFI_SSID_ADDR < EEPROM_WIFI_PASS_ADDR ∧
      EEPROM_WIFI_PASS_ADDR < EEPROM_SENSOR_DELAY_A_ADDR ∧
      EEPROM_SENSOR_DELAY_A_ADDR < EEPROM_SENSOR_DELAY_B_ADDR) ∧
    (EEPROM_WIFI_PASS_ADDR - EEPROM_WIFI_SSID_ADDR = 64 ∧
      EEPROM_SENSOR_DELAY_A_ADDR - EEPROM_WIFI_PASS_ADDR = 64 ∧
      EEPROM_SENSOR_DELAY_B_ADDR - EEPROM_SENSOR_DELAY_A_ADDR = 4) ∧
    EEPROM_SENSOR_DELAY_A_ADDR + 4 ≤ EEPROM_SENSOR_DELAY_B_ADDR ∧
    EEPROM_SENSOR_DELAY_B_ADDR + 4 ≤ EEPROM_SIZE ∧
    EEPROM_SIZE = 512 ∧
    (∀ a : Nat,
      ¬ (inRegion EEPROM_WIFI_SSID_ADDR 64 a ∧ inRegion EEPROM_WIFI_PASS_ADDR 64 a) ∧
      ¬ (inRegion EEPROM_WIFI_SSID_ADDR 64 a ∧ inRegion EEPROM_SENSOR_DELAY_A_ADDR 4 a) ∧
      ¬ (inRegion EEPROM_WIFI_SSID_ADDR 64 a ∧ inRegion EEPROM_SENSOR_DELAY_B_ADDR 4 a) ∧
      ¬ (inRegion EEPROM_WIFI_PASS_ADDR 64 a ∧ inRegion EEPROM_SENSOR_DELAY_A_ADDR 4 a) ∧
      ¬ (inRegion EEPROM_WIFI_PASS_ADDR 64 a ∧ inRegion EEPROM_SENSOR_DELAY_B_ADDR 4 a) ∧
      ¬ (inRegion EEPROM_SENSOR_DELAY_A_ADDR 4 a ∧ inRegion EEPROM_SENSOR_DELAY_B_ADDR 4 a)) ∧
    (∀ a : Nat,
      (inRegion EEPROM_WIFI_SSID_ADDR 64 a ∨ inRegion EEPROM_WIFI_PASS_ADDR 64 a ∨
        inRegion EEPROM_SENSOR_DELAY_A_ADDR 4 a ∨ inRegion EEPROM_SENSOR_DELAY_B_ADDR 4 a) →
      a < EEPROM_SIZE) := by
  refine ⟨by decide, by decide, by decide, by decide, by decide, ?_, ?_⟩
  · intro a
    simp only [inRegion, EEPROM_WIFI_SSID_ADDR, EEPROM_WIFI_PASS_ADDR,
      EEPROM_SENSOR_DELAY_A_ADDR, EEPROM_SENSOR_DELAY_B_ADDR]
    omega
  · intro a
    simp only [inRegion, EEPROM_WIFI_SSID_ADDR, EEPROM_WIFI_PASS_ADDR,
      EEPROM_SENSOR_DELAY_A_ADDR, EEPROM_SENSOR_DELAY_B_ADDR, EEPROM_SIZE]
    omega

/-- C7: MAX_PUMP_RUNTIME is 300000 ms, exactly five minutes; for a relay switched on at
t0 = 0 the overrun condition `now - t0 >= MAX_PUMP_RUNTIME` is false for every
now < 300000, true at 300001 and at 300002, and monotone in `now` for every fixed t0. -/
theorem max_pump_runtime_five_minutes_threshold :
    MAX_PUMP_RUNTIME = 300000 ∧
    MAX_PUMP_RUNTIME = 5 * 60 * 1000 ∧
    (∀ now : Nat, now < 300000 → ¬ (MAX_PUMP_RUNTIME ≤ now - 0)) ∧
    MAX_PUMP_RUNTIME ≤ 300001 - 0 ∧
    MAX_PUMP_RUNTIME ≤ 300002 - 0 ∧
    (∀ t0 now later : Nat, now ≤ later →
      MAX_PUMP_RUNTIME ≤ now - t0 → MAX_PUMP_RUNTIME ≤ later - t0) := by
  refine ⟨rfl, rfl, ?_, by decide, by decide, ?_⟩
  · intro now h
    simp only [MAX_PUMP_RUNTIME]
    omega
  · intro t0 now later h
    simp only [MAX_PUMP_RUNTIME]
    omega

/-- C8: for every integer v, v lies in [MIN_SENSOR_VALUE, MAX_SENSOR_VALUE] exactly when
it lies in [0, MAX_SENSOR_VALUE]; the range is non-empty, its upper end is 5000 mm, and
it contains the reading 1200. -/
theorem sensor_range_matches_data_model :
    (∀ v : Int, (MIN_SENSOR_VALUE ≤ v ∧ v ≤ MAX_SENSOR_VALUE) ↔ (0 ≤ v ∧ v ≤ MAX_SENSOR_VALUE)) ∧
    MIN_SENSOR_VALUE ≤ MAX_SENSOR_VALUE ∧
    MAX_SENSOR_VALUE = 5000 ∧
    (MIN_SENSOR_VALUE ≤ 1200 ∧ (1200 : Int) ≤ MAX_SENSOR_VALUE) := by
  refine ⟨?_, by decide, rfl, by decide⟩
  intro v
  simp only [MIN_SENSOR_VALUE]

/-- C9: with the compiled-in defaults the response window is strictly shorter than each
poll period and one period plus one window fits inside SENSOR_TIMEOUT; hence a poll
started at its scheduled time `s` and blocking for the whole window ends before the next
scheduled time, and a reading stamped at or after `s` is not older than SENSOR_TIMEOUT
at any time up to the latest moment the next poll can publish. -/
theorem sensor_timing_budget :
    (SENSOR_RESPONSE_DELAY < SENSOR_READ_DELAY_A ∧
      SENSOR_RESPONSE_DELAY < SENSOR_READ_DELAY_B ∧
      SENSOR_READ_DELAY_A + SENSOR_RESPONSE_DELAY ≤ SENSOR_TIMEOUT ∧
      SENSOR_READ_DELAY_B + SENSOR_RESPONSE_DELAY ≤ SENSOR_TIMEOUT) ∧
    (∀ s : Nat, s + SENSOR_RESPONSE_DELAY < s + SENSOR_READ_DELAY_A ∧
      s + SENSOR_RESPONSE_DELAY < s + SENSOR_READ_DELAY_B) ∧
    (∀ s stamp now : Nat, s ≤ stamp →
      (now ≤ s + SENSOR_READ_DELAY_A + SENSOR_RESPONSE_DELAY →
        ¬ (now - stamp > SENSOR_TIMEOUT)) ∧
      (now ≤ s + SENSOR_READ_DELAY_B + SENSOR_RESPONSE_DELAY →
        ¬ (now - stamp > SENSOR_TIMEOUT))) := by
  refine ⟨by decide, ?_, ?_⟩
  · intro s
    simp only [SENSOR_RESPONSE_DELAY, SENSOR_READ_DELAY_A, SENSOR_READ_DELAY_B]
    omega
  · intro s stamp now h
    simp only [SENSOR_RESPONSE_DELAY, SENSOR_READ_DELAY_A, SENSOR_READ_DELAY_B, SENSOR_TIMEOUT]
    omega

/-- C10: the eight pin roles of config.h are mapped to eight pairwise distinct pin
numbers; in particular neither relay pin is the pin of an auxiliary output, an
indicator, the buzzer or the config-select input. -/
theorem pin_roles_pairwise_distinct :
    pinAssignments.length = 8 ∧
    pinAssignments.Pairwise (fun p q => p ≠ q) ∧
    RELAY1_PIN ∉ [RELAY2_PIN, OUTPUT1_PIN, OUTPUT2_PIN, STATUS_PIN, FAULT_PIN, BUZZER_PIN,
      CONFIG_PIN] ∧
    RELAY2_PIN ∉ [RELAY1_PIN, OUTPUT1_PIN, OUTPUT2_PIN, STATUS_PIN, FAULT_PIN, BUZZER_PIN,
      CONFIG_PIN] := by
  decide

/-! ## Section 4: properties of the control core -/

/-- C3: for a response that arrived and decodes to the integer v, SensorLink.poll
returns Valid with valueMm exactly v when MIN_SENSOR_VALUE <= v <= MAX_SENSOR_VALUE, that
is 0 <= v <= 5000, and OutOfRange otherwise; it never returns Valid with another value. -/
theorem poll_valid_exact_or_out_of_range (decode : List Nat → Option Int)
    (onMalformed : SensorStatus) (now : Nat) (rx : List Nat) (v : Int)
    (hrx : rx ≠ []) (hdec : decode rx = some v) :
    ((MIN_SENSOR_VALUE ≤ v ∧ v ≤ MAX_SENSOR_VALUE) →
      (SensorLink.poll decode onMalformed now rx).status = .Valid ∧
      (SensorLink.poll decode onMalformed now rx).valueMm = v) ∧
    (¬ (MIN_SENSOR_VALUE ≤ v ∧ v ≤ MAX_SENSOR_VALUE) →
      (SensorLink.poll decode onMalformed now rx).status = .OutOfRange) ∧
    ((SensorLink.poll decode onMalformed now rx).status = .Valid →
      (SensorLink.poll decode onMalformed now rx).valueMm = v) ∧
    ((SensorLink.poll decode onMalformed now rx).status = .Valid ↔ (0 ≤ v ∧ v ≤ 5000)) := by
  cases rx with
  | nil => exact absurd rfl hrx
  | cons b bs =>
    by_cases hv : MIN_SENSOR_VALUE ≤ v ∧ v ≤ MAX_SENSOR_VALUE
    · have hv2 : 0 ≤ v ∧ v ≤ 5000 := by
        simpa only [MIN_SENSOR_VALUE, MAX_SENSOR_VALUE] using hv
      simp [SensorLink.poll, hdec, hv, hv2]
    · have hv2 : ¬ (0 ≤ v ∧ v ≤ 5000) := by
        simpa only [MIN_SENSOR_VALUE, MAX_SENSOR_VALUE] using hv
      simp [SensorLink.poll, hdec, hv, hv2]

/-- C3 at concrete frames: the two bytes 4, 176 decode to 1200 and are reported Valid
with value 1200; the two bytes 19, 137 decode to 5001 and are reported OutOfRange. -/
theorem poll_valid_exact_or_out_of_range_witness :
    ([4, 176] ≠ ([] : List Nat) ∧ scenarioDecode [4, 176] = some 1200) ∧
    ((SensorLink.poll scenarioDecode .Timeout 1000 [4, 176]).status = .Valid ∧
      (SensorLink.poll scenarioDecode .Timeout 1000 [4, 176]).valueMm = 1200) ∧
    (SensorLink.poll scenarioDecode .Timeout 1000 [19, 137]).status = .OutOfRange :=
  ⟨⟨by decide, by decide⟩,
   (poll_valid_exact_or_out_of_range scenarioDecode .Timeout 1000 [4, 176] 1200
      (by decide) (by decide)).1 (by decide),
   (poll_valid_exact_or_out_of_range scenarioDecode .Timeout 1000 [19, 137] 5001
      (by decide) (by decide)).2.1 (by decide)⟩

/-- C4: in a FaultMonitor cycle at time `now`, whatever sensor B reads, whatever the
relay channels and the keepalive time are, if sensor A's published reading is older than
SENSOR_TIMEOUT or has status Timeout then the FaultSet of that cycle contains
sensorATimeout and the fault indicator is asserted. -/
theorem fault_cycle_flags_sensor_a_timeout (now : Nat) (a b : SensorReading)
    (relays : RelaySafetyController) (lastKeepalive : Nat)
    (h : now - a.timestamp > SENSOR_TIMEOUT ∨ a.status = .Timeout) :
    (FaultMonitor.evaluate now a b relays lastKeepalive).sensorATimeout = true ∧
    FaultMonitor.faultIndicator (FaultMonitor.evaluate now a b relays lastKeepalive) = true := by
  have hA : FaultMonitor.sensorTimedOut now a = true := by
    rcases h with h | h
    · simp [FaultMonitor.sensorTimedOut, h]
    · simp [FaultMonitor.sensorTimedOut, h]
  simp [FaultMonitor.evaluate, FaultMonitor.faultIndicator, FaultSet.isEmpty, hA]

/-- C4 on the scenario of spec section 8: sensor A, polled every 1000 ms, answers
1200 mm in cycles 1 to 10 and nothing afterwards.  After cycle 10 its reading is Valid
1200 stamped 10000 and a cycle of the FaultMonitor at that time finds no fault; after
cycle 15 its reading has status Timeout, and the FaultMonitor cycle at 15000 ms puts
sensorATimeout in the FaultSet and asserts the fault indicator, sensor B being Valid. -/
theorem fault_cycle_flags_sensor_a_timeout_witness :
    scenarioSensorA 10 0 = { valueMm := 1200, timestamp := 10000, status := .Valid } ∧
    (FaultMonitor.evaluate 10000 (scenarioSensorA 10 0)
      { valueMm := 800, timestamp := 10000, status := .Valid }
      RelaySafetyController.init 10000).isEmpty = true ∧
    (scenarioSensorA 10 5).status = .Timeout ∧
    (FaultMonitor.evaluate 15000 (scenarioSensorA 10 5)
      { valueMm := 800, timestamp := 15000, status := .Valid }
      RelaySafetyController.init 15000).sensorATimeout = true ∧
    FaultMonitor.faultIndicator (FaultMonitor.evaluate 15000 (scenarioSensorA 10 5)
      { valueMm := 800, timestamp := 15000, status := .Valid }
      RelaySafetyController.init 15000) = true :=
  ⟨by decide, by decide, by decide,
   fault_cycle_flags_sensor_a_timeout 15000 (scenarioSensorA 10 5)
     { valueMm := 800, timestamp := 15000, status := .Valid }
     RelaySafetyController.init 15000 (Or.inr (by decide))⟩

/-- The start-up channel is consistent. -/
theorem RelayChannel.init_consistent (id : Nat) : (RelayChannel.init id).Consistent := by
  simp [RelayChannel.Consistent, RelayChannel.init, RelayState.isLocked]

/-- Every transition keeps the flags of a channel in agreement with its state. -/
theorem RelayChannel.next_consistent (c : RelayChannel) (e : RelayEvent)
    (h : c.Consistent) : (c.next e).Consistent := by
  obtain ⟨id, st, cmd, act, since, lk⟩ := c
  obtain ⟨hact, hlk⟩ := h
  simp only at hact hlk
  subst hlk
  rcases e with ⟨now, _ | _, _ | _⟩ | now | _ | ⟨_ | _⟩ <;> cases st <;>
    simp_all [RelayChannel.next, RelayChannel.step, RelayChannel.Consistent,
      RelayState.isLocked]
  all_goals (split <;> simp_all [RelayState.isLocked])

/-- A run keeps the flags of a channel in agreement with its state. -/
theorem RelayChannel.run_consistent (es : List RelayEvent) :
    ∀ c : RelayChannel, c.Consistent → (c.run es).Consistent := by
  induction es with
  | nil => intro c h; exact h
  | cons e es ih =>
    intro c h
    exact ih (c.next e) (RelayChannel.next_consistent c e h)

/-- Both channels of the controller stay consistent along every run from start-up. -/
theorem RelaySafetyController.run_channels_consistent (es : List (RelayId × RelayEvent)) :
    ∀ s : RelaySafetyController, s.relay1.Consistent → s.relay2.Consistent →
      (s.run es).relay1.Consistent ∧ (s.run es).relay2.Consistent := by
  induction es with
  | nil => intro s h1 h2; exact ⟨h1, h2⟩
  | cons e es ih =>
    intro s h1 h2
    obtain ⟨k, ev⟩ := e
    cases k
    · exact ih _ (RelayChannel.next_consistent _ ev h1) h2
    · exact ih _ h1 (RelayChannel.next_consistent _ ev h2)

/-- A command to switch on never changes `lockedOut`, and changes nothing at all in a
lockout state. -/
theorem RelayChannel.commandOn_keeps_lockedOut (c : RelayChannel) (now : Nat)
    (faultActive : Bool) :
    (c.next (.commandOn now true faultActive)).lockedOut = c.lockedOut ∧
    (c.state.isLocked = true → c.next (.commandOn now true faultActive) = c) := by
  obtain ⟨id, st, cmd, act, since, lk⟩ := c
  cases st <;> cases faultActive <;>
    simp [RelayChannel.next, RelayChannel.step, RelayState.isLocked]

/-- C2: in every state the relay safety controller reaches from start-up, for each of
the two relay channels, the physical output (the channel's actualOn, which is the level
driven on the channel's relay pin) is true only if the state is exactly On; lockedOut
implies actualOn is false; and a commandOn(true) issued while lockedOut is true leaves
lockedOut true and the output false. -/
theorem physical_output_only_in_state_on (es : List (RelayId × RelayEvent)) (k : RelayId) :
    (((RelaySafetyController.init.run es).channel k).actualOn = true →
      ((RelaySafetyController.init.run es).channel k).state = .On) ∧
    ((RelaySafetyController.init.run es).pinLevel k.pin = true →
      ((RelaySafetyController.init.run es).channel k).state = .On) ∧
    (((RelaySafetyController.init.run es).channel k).lockedOut = true →
      ((RelaySafetyController.init.run es).channel k).actualOn = false) ∧
    (∀ (now : Nat) (faultActive : Bool),
      ((RelaySafetyController.init.run es).channel k).lockedOut = true →
      (((RelaySafetyController.init.run es).channel k).next
        (.commandOn now true faultActive)).lockedOut = true ∧
      (((RelaySafetyController.init.run es).channel k).next
        (.commandOn now true faultActive)).actualOn = false) := by
  have hinv := RelaySafetyController.run_channels_consistent es RelaySafetyController.init
    (RelayChannel.init_consistent 1) (RelayChannel.init_consistent 2)
  have hc : ((RelaySafetyController.init.run es).channel k).Consistent := by
    cases k
    · exact hinv.1
    · exact hinv.2
  have hpin : (RelaySafetyController.init.run es).pinLevel k.pin =
      ((RelaySafetyController.init.run es).channel k).actualOn := by
    cases k <;>
      simp [RelaySafetyController.pinLevel, RelaySafetyController.channel, RelayId.pin,
        RELAY1_PIN, RELAY2_PIN]
  obtain ⟨hact, hlk⟩ := hc
  have hoff : ((RelaySafetyController.init.run es).channel k).lockedOut = true →
      ((RelaySafetyController.init.run es).channel k).actualOn = false := by
    intro hl
    cases hon : ((RelaySafetyController.init.run es).channel k).actualOn with
    | false => rfl
    | true =>
      have hst := hact hon
      rw [hlk, hst] at hl
      simp [RelayState.isLocked] at hl
  refine ⟨hact, ?_, hoff, ?_⟩
  · rw [hpin]; exact hact
  · intro now fa hl
    have hk := RelayChannel.commandOn_keeps_lockedOut
      ((RelaySafetyController.init.run es).channel k) now fa
    have hlocked : ((RelaySafetyController.init.run es).channel k).state.isLocked = true := by
      rw [← hlk]; exact hl
    rw [hk.2 hlocked]
    exact ⟨hl, hoff hl⟩

/-- C2 on a concrete run: relay 1 is commanded on and relay 2 is commanded on and then
hit by a fault signal; relay 1 is On with its pin high, relay 2 is locked out with its
pin low, and a further on command leaves relay 2 locked out. -/
theorem physical_output_only_in_state_on_witness :
    ((RelaySafetyController.init.run
      [(.relay1, .commandOn 0 true false), (.relay2, .commandOn 5 true false),
        (.relay2, .faultSignal)]).pinLevel RELAY1_PIN = true ∧
      (RelaySafetyController.init.run
      [(.relay1, .commandOn 0 true false), (.relay2, .commandOn 5 true false),
        (.relay2, .faultSignal)]).relay1.state = .On) ∧
    ((RelaySafetyController.init.run
      [(.relay1, .commandOn 0 true false), (.relay2, .commandOn 5 true false),
        (.relay2, .faultSignal)]).relay2.lockedOut = true ∧
      (RelaySafetyController.init.run
      [(.relay1, .commandOn 0 true false), (.relay2, .commandOn 5 true false),
        (.relay2, .faultSignal)]).relay2.actualOn = false) ∧
    ((RelaySafetyController.init.run
      [(.relay1, .commandOn 0 true false), (.relay2, .commandOn 5 true false),
        (.relay2, .faultSignal)]).relay2.next (.commandOn 9 true false)).lockedOut = true :=
  have h1 := physical_output_only_in_state_on
    [(.relay1, .commandOn 0 true false), (.relay2, .commandOn 5 true false),
      (.relay2, .faultSignal)] .relay1
  have h2 := physical_output_only_in_state_on
    [(.relay1, .commandOn 0 true false), (.relay2, .commandOn 5 true false),
      (.relay2, .faultSignal)] .relay2
  ⟨⟨by decide, h1.2.1 (by decide)⟩, ⟨by decide, h2.2.2.1 (by decide)⟩,
   (h2.2.2.2 9 false (by decide)).1⟩

/-- The fault premise of the overrun property is needed for the name of the lockout
state only: when a fault is signalled to relay 1 at 1000 ms, after it was commanded on
at t = 0, the control cycle at 300000 ms finds it FaultLocked, its output false. -/
theorem fault_signal_locks_as_fault_locked :
    noFaultSignalled [(1000, [.faultSignal])] = false ∧
    ((RelayChannel.init 1).runCycles
      [(0, [.command true false]), (1000, [.faultSignal]), (300000, [])]).state
      = .FaultLocked ∧
    ((RelayChannel.init 1).runCycles
      [(0, [.command true false]), (1000, [.faultSignal]), (300000, [])]).actualOn
      = false := by
  decide

end SmartTank
